import Mathlib

/-!
Verification of the `http::status` assertion DSL (`src/dsl/http/status.rs`).

The repository's `src/` contains the status-code DSL: the shorthand factories
`is_success` / `is_client_error` / `is_server_error` and the four
`StatusCodeDsl::eval` implementations (for `StatusCode`, `u16`,
`Range<StatusCode>` and `Range<u16>`), which dispatch on a `Predicate` and
fall through to `unimplemented!()` on unsupported predicate/operand pairings.
The surrounding crate items they call (`Predicate`, `Range`, `Expression`,
the factories `is` / `is_not` / `is_between`, the comparison traits
`IsEq::is_eq`, `IsNe::is_ne`, `RangeInclusive::in_range`, `Assertion` and
`LogSettings`) are not part of the provided sources; those are modelled from
the specification and are marked as such in their doc comments.

Machine integers: `u16` values are embedded as `Nat`. The status domain only
compares values with `==` / `<=` (no arithmetic), so no overflow can occur
and the `Nat` embedding is exact for all `u16` inputs.
-/

namespace Mantis

/-- Modelled from the spec: `Predicate` (crate `dsl` module) is a closed
enumeration of comparison kinds. The variants `Is`, `IsNot` and `Between` are
named in `src/dsl/http/status.rs`; the remaining variants are the ones the
spec lists for the other domains (`Contains`, `LessThan`, `GreaterThan`). -/
inductive Predicate where
  | is
  | isNot
  | between
  | contains
  | lessThan
  | greaterThan
deriving DecidableEq, Repr

/-- Modelled from the spec: the log verbosity levels of `LogSettings`. -/
inductive Verbosity where
  | quiet
  | normal
  | verbose
deriving DecidableEq, Repr

/-- Modelled from the spec: `LogSettings` is a read-only session
configuration `{ verbosity, color }`; evaluation only hands it to the
reporting sink. -/
structure LogSettings where
  verbosity : Verbosity
  color : Bool
deriving DecidableEq, Repr

/-- Modelled from the spec: `http::StatusCode` wraps an integer status code
(`as_u16` exposes the `u16` value). The `code` field is that `u16` value. -/
structure StatusCode where
  code : Nat
deriving DecidableEq, Repr

/-- Modelled from the spec: `Range<T>` (crate `dsl` module) is a two-sided
bound `{ left, right }`; ordering of the bounds is the caller's
responsibility. -/
structure Range (T : Type) where
  left : T
  right : T
deriving DecidableEq, Repr

/-- Modelled from the spec: `Expression<T>` pairs a `Predicate` with the
operand value needed to evaluate it. -/
structure Expression (T : Type) where
  predicate : Predicate
  value : T
deriving DecidableEq, Repr

/-- Modelled from the spec: the operand shape recorded in an evaluated
assertion — either a single expected value or a pair of bounds. -/
inductive OperandShape (T : Type) where
  | scalar (v : T)
  | range (r : Range T)
deriving DecidableEq, Repr

/-- Modelled from the spec: `Assertion<T>` is the evaluated result
`{ predicate, expected, actual, passed }`, immutable once produced. -/
structure Assertion (T : Type) where
  predicate : Predicate
  expected : OperandShape T
  actual : T
  passed : Bool
deriving DecidableEq, Repr

/-- Modelled from the spec: `Assertion::assert(log_settings)` hands the
already-decided assertion to the reporting sink and returns it; reporting is
an external side effect, so the assertion value is returned unchanged. -/
def Assertion.assert {T : Type} (a : Assertion T) (_settings : LogSettings) :
    Assertion T :=
  a

/-- Modelled from the spec: the factory `is(v)` builds an equality
expression; pure construction, no evaluation. -/
def is {T : Type} (v : T) : Expression T :=
  { predicate := Predicate.is, value := v }

/-- Modelled from the spec: the factory `is_not(v)` builds a non-equality
expression; pure construction, no evaluation. -/
def is_not {T : Type} (v : T) : Expression T :=
  { predicate := Predicate.isNot, value := v }

/-- Modelled from the spec: the factory `is_between(left, right)` builds a
`Between` expression carrying the two bounds as given; pure construction,
no evaluation. -/
def is_between {T : Type} (left right : T) : Expression (Range T) :=
  { predicate := Predicate.between, value := { left := left, right := right } }

/-- From `src/dsl/http/status.rs`: `is_success()` is `is_between(200, 299)`. -/
def is_success : Expression (Range Nat) :=
  is_between 200 299

/-- From `src/dsl/http/status.rs`: `is_client_error()` is
`is_between(400, 499)`. -/
def is_client_error : Expression (Range Nat) :=
  is_between 400 499

/-- From `src/dsl/http/status.rs`: `is_server_error()` is
`is_between(500, 599)`. -/
def is_server_error : Expression (Range Nat) :=
  is_between 500 599

/-- Modelled from the spec: `IsEq::is_eq` (crate `assertion::traits`) builds
the equality assertion — structural equality of the observed status code and
the expected `u16` value, recorded in an `Assertion<u16>`. -/
def StatusCode.is_eq (actual : StatusCode) (expected : Nat) : Assertion Nat :=
  { predicate := Predicate.is
    expected := OperandShape.scalar expected
    actual := actual.code
    passed := actual.code == expected }

/-- Modelled from the spec: `IsNe::is_ne` (crate `assertion::traits`) builds
the non-equality assertion — passes exactly when the observed status code
differs from the expected `u16` value. -/
def StatusCode.is_ne (actual : StatusCode) (expected : Nat) : Assertion Nat :=
  { predicate := Predicate.isNot
    expected := OperandShape.scalar expected
    actual := actual.code
    passed := actual.code != expected }

/-- Modelled from the spec: `RangeInclusive::in_range` (crate
`assertion::traits`) builds the range assertion — the observed value must lie
within `[min(left,right), max(left,right)]`, inclusive on both ends (§3, §7:
reversed bounds are normalized, evaluation stays total). -/
def StatusCode.in_range (actual : StatusCode) (left right : Nat) :
    Assertion Nat :=
  { predicate := Predicate.between
    expected := OperandShape.range { left := left, right := right }
    actual := actual.code
    passed := decide (min left right ≤ actual.code)
                && decide (actual.code ≤ max left right) }

/-- From `src/dsl/http/status.rs`, `StatusCodeDslEquality<StatusCode> for
StatusCode`: `fn is(self, actual) { actual.is_eq(self) }` (the expected
`StatusCode` is compared through its `u16` value, per the `Assertion<u16>`
result type). -/
def statusIsStatus (self actual : StatusCode) : Assertion Nat :=
  actual.is_eq self.code

/-- From `src/dsl/http/status.rs`, `StatusCodeDslEquality<StatusCode> for
StatusCode`: `fn is_not(self, actual) { actual.is_ne(self) }`. -/
def statusIsNotStatus (self actual : StatusCode) : Assertion Nat :=
  actual.is_ne self.code

/-- From `src/dsl/http/status.rs`, `StatusCodeDslEquality<StatusCode> for
u16`: `fn is(self, actual) { actual.is_eq(self) }`. -/
def statusIsU16 (self : Nat) (actual : StatusCode) : Assertion Nat :=
  actual.is_eq self

/-- From `src/dsl/http/status.rs`, `StatusCodeDslEquality<StatusCode> for
u16`: `fn is_not(self, actual) { actual.is_ne(self) }`. -/
def statusIsNotU16 (self : Nat) (actual : StatusCode) : Assertion Nat :=
  actual.is_ne self

/-- From `src/dsl/http/status.rs`, `StatusCodeDslBetween<StatusCode> for
Range<StatusCode>`: `fn is_between(self, actual)
{ actual.in_range(self.left, self.right) }`. -/
def isBetweenRangeStatus (self : Range StatusCode) (actual : StatusCode) :
    Assertion Nat :=
  actual.in_range self.left.code self.right.code

/-- From `src/dsl/http/status.rs`, `StatusCodeDslBetween<StatusCode> for
Range<u16>`: `fn is_between(self, actual)
{ actual.in_range(self.left, self.right) }`. -/
def isBetweenRangeU16 (self : Range Nat) (actual : StatusCode) :
    Assertion Nat :=
  actual.in_range self.left self.right

/-- The outcome of the `unimplemented!()` fallback arms in the
`StatusCodeDsl::eval` implementations: an unsupported-operation panic,
embedded as an explicit error value so evaluation is a total function. -/
inductive EvalError where
  | unsupported
deriving DecidableEq, Repr

/-- From `src/dsl/http/status.rs`, `StatusCodeDsl<StatusCode> for
StatusCode::eval`: dispatches on the predicate — `Is` and `IsNot` evaluate,
every other predicate hits `unimplemented!()`. -/
def evalStatus (self : StatusCode) (actual : StatusCode)
    (predicate : Predicate) (settings : LogSettings) :
    Except EvalError (Assertion Nat) :=
  match predicate with
  | Predicate.is => Except.ok ((statusIsStatus self actual).assert settings)
  | Predicate.isNot =>
      Except.ok ((statusIsNotStatus self actual).assert settings)
  | _ => Except.error EvalError.unsupported

/-- From `src/dsl/http/status.rs`, `StatusCodeDsl<StatusCode> for u16::eval`:
dispatches on the predicate — `Is` and `IsNot` evaluate, every other
predicate hits `unimplemented!()`. -/
def evalU16 (self : Nat) (actual : StatusCode) (predicate : Predicate)
    (settings : LogSettings) : Except EvalError (Assertion Nat) :=
  match predicate with
  | Predicate.is => Except.ok ((statusIsU16 self actual).assert settings)
  | Predicate.isNot => Except.ok ((statusIsNotU16 self actual).assert settings)
  | _ => Except.error EvalError.unsupported

/-- From `src/dsl/http/status.rs`, `StatusCodeDsl<StatusCode> for
Range<StatusCode>::eval`: only `Between` evaluates, every other predicate
hits `unimplemented!()`. -/
def evalRangeStatus (self : Range StatusCode) (actual : StatusCode)
    (predicate : Predicate) (settings : LogSettings) :
    Except EvalError (Assertion Nat) :=
  match predicate with
  | Predicate.between =>
      Except.ok ((isBetweenRangeStatus self actual).assert settings)
  | _ => Except.error EvalError.unsupported

/-- From `src/dsl/http/status.rs`, `StatusCodeDsl<StatusCode> for
Range<u16>::eval`: only `Between` evaluates, every other predicate hits
`unimplemented!()`. -/
def evalRangeU16 (self : Range Nat) (actual : StatusCode)
    (predicate : Predicate) (settings : LogSettings) :
    Except EvalError (Assertion Nat) :=
  match predicate with
  | Predicate.between =>
      Except.ok ((isBetweenRangeU16 self actual).assert settings)
  | _ => Except.error EvalError.unsupported

/-- Modelled from the spec: the assertion chain's `status(expression)` call
evaluates the expression's operand against the observed status code under
the expression's predicate (here for a `u16` scalar operand). -/
def evalExprU16 (e : Expression Nat) (actual : StatusCode)
    (settings : LogSettings) : Except EvalError (Assertion Nat) :=
  evalU16 e.value actual e.predicate settings

/-- Modelled from the spec: the assertion chain's `status(expression)` call
for a `Range<u16>` operand. -/
def evalExprRangeU16 (e : Expression (Range Nat)) (actual : StatusCode)
    (settings : LogSettings) : Except EvalError (Assertion Nat) :=
  evalRangeU16 e.value actual e.predicate settings

/-- A fixed `LogSettings` value used to instantiate witnesses. -/
def defaultLog : LogSettings :=
  { verbosity := Verbosity.normal, color := true }

end Mantis

namespace Mantis

/-- C1: for every pair of bounds `a ≤ b` and every observed status code `x`,
evaluating the expression built by `is_between a b` against `x` produces an
assertion that passes exactly when `a ≤ x ≤ b`, both ends inclusive. -/
theorem is_between_passes_iff (a b : Nat) (x : StatusCode)
    (settings : LogSettings) (h : a ≤ b) :
    ∃ r, evalExprRangeU16 (is_between a b) x settings = Except.ok r ∧
      (r.passed = true ↔ (a ≤ x.code ∧ x.code ≤ b)) := by
  refine ⟨isBetweenRangeU16 { left := a, right := b } x, rfl, ?_⟩
  simp [isBetweenRangeU16, StatusCode.in_range, Nat.min_eq_left h,
    Nat.max_eq_right h]

/-- Witness for C1 at bounds `[200, 299]` and observed status `250`. -/
theorem is_between_passes_iff_witness :
    (200 : Nat) ≤ 299 ∧
    (∃ r, evalExprRangeU16 (is_between 200 299) { code := 250 } defaultLog =
        Except.ok r ∧
      (r.passed = true ↔
        (200 ≤ StatusCode.code { code := 250 } ∧
          StatusCode.code { code := 250 } ≤ 299))) :=
  ⟨by decide,
    is_between_passes_iff 200 299 { code := 250 } defaultLog (by decide)⟩

/-- C2: for every pair of bounds `a > b` and every observed status code,
evaluating `is_between a b` produces the same outcome (pass/fail) as
evaluating `is_between b a`: reversed bounds are normalized via
`min`/`max` rather than causing a failure. -/
theorem is_between_reversed_normalizes (a b : Nat) (x : StatusCode)
    (settings : LogSettings) (h : b < a) :
    ∃ r₁ r₂,
      evalExprRangeU16 (is_between a b) x settings = Except.ok r₁ ∧
      evalExprRangeU16 (is_between b a) x settings = Except.ok r₂ ∧
      r₁.passed = r₂.passed := by
  refine ⟨_, _, rfl, rfl, ?_⟩
  simp only [is_between, isBetweenRangeU16, StatusCode.in_range,
    Assertion.assert, Nat.min_comm a b, Nat.max_comm a b]

/-- Witness for C2 at reversed bounds `(299, 200)` and observed status
`250`. -/
theorem is_between_reversed_witness :
    (200 : Nat) < 299 ∧
    (∃ r₁ r₂,
      evalExprRangeU16 (is_between 299 200) { code := 250 } defaultLog =
        Except.ok r₁ ∧
      evalExprRangeU16 (is_between 200 299) { code := 250 } defaultLog =
        Except.ok r₂ ∧
      r₁.passed = r₂.passed) :=
  ⟨by decide,
    is_between_reversed_normalizes 299 200 { code := 250 } defaultLog
      (by decide)⟩

/-- C3: for every expected code `v`, evaluating the expression built by
`is v` against an observed status code passes exactly when the observed code
equals `v`. -/
theorem is_passes_iff_eq (v : Nat) (x : StatusCode) (settings : LogSettings) :
    ∃ r, evalExprU16 (is v) x settings = Except.ok r ∧
      (r.passed = true ↔ x.code = v) := by
  refine ⟨statusIsU16 v x, rfl, ?_⟩
  simp [statusIsU16, StatusCode.is_eq]

/-- C4: for every expected code `v` and every observed status code, the
assertion produced by `is_not v` passes exactly when the assertion produced
by `is v` against the same observed value fails (exact logical negation). -/
theorem is_not_negates_is (v : Nat) (x : StatusCode)
    (settings : LogSettings) :
    ∃ r₁ r₂, evalExprU16 (is_not v) x settings = Except.ok r₁ ∧
      evalExprU16 (is v) x settings = Except.ok r₂ ∧
      r₁.passed = !r₂.passed := by
  refine ⟨_, _, rfl, rfl, ?_⟩
  simp only [is, is_not, statusIsNotU16, statusIsU16, StatusCode.is_ne,
    StatusCode.is_eq, Assertion.assert, bne]

/-- C5: status-domain evaluation is total on every supported
predicate/operand pairing: for any expected operand (scalar `u16`, scalar
`StatusCode`, or either range form — including ranges with reversed bounds)
and any observed status code, `eval` returns an assertion and never reaches
the panicking arm. -/
theorem eval_total_on_supported (v : Nat) (s : StatusCode) (rg : Range Nat)
    (rgs : Range StatusCode) (x : StatusCode) (settings : LogSettings) :
    (∃ r, evalU16 v x Predicate.is settings = Except.ok r) ∧
    (∃ r, evalU16 v x Predicate.isNot settings = Except.ok r) ∧
    (∃ r, evalStatus s x Predicate.is settings = Except.ok r) ∧
    (∃ r, evalStatus s x Predicate.isNot settings = Except.ok r) ∧
    (∃ r, evalRangeU16 rg x Predicate.between settings = Except.ok r) ∧
    (∃ r, evalRangeStatus rgs x Predicate.between settings = Except.ok r) :=
  ⟨⟨_, rfl⟩, ⟨_, rfl⟩, ⟨_, rfl⟩, ⟨_, rfl⟩, ⟨_, rfl⟩, ⟨_, rfl⟩⟩

/-- C6: every predicate a status evaluator does not support hits the
`unimplemented!()` arm: scalar evaluators signal unsupported for any
predicate other than `Is`/`IsNot`, and range evaluators for any predicate
other than `Between`, instead of returning an assertion. -/
theorem eval_unsupported_errors (v : Nat) (s : StatusCode) (rg : Range Nat)
    (rgs : Range StatusCode) (x : StatusCode) (settings : LogSettings)
    (p : Predicate) :
    ((p ≠ Predicate.is ∧ p ≠ Predicate.isNot) →
        evalU16 v x p settings = Except.error EvalError.unsupported ∧
        evalStatus s x p settings = Except.error EvalError.unsupported) ∧
    (p ≠ Predicate.between →
        evalRangeU16 rg x p settings = Except.error EvalError.unsupported ∧
        evalRangeStatus rgs x p settings =
          Except.error EvalError.unsupported) := by
  constructor
  · rintro ⟨h₁, h₂⟩
    cases p <;> simp_all [evalU16, evalStatus]
  · intro h
    cases p <;> simp_all [evalRangeU16, evalRangeStatus]

/-- Witness for C6: `Contains` on the scalar `u16` evaluator and `Is` on the
`Range<u16>` evaluator both signal unsupported. -/
theorem eval_unsupported_errors_witness :
    evalU16 500 { code := 200 } Predicate.contains defaultLog =
        Except.error EvalError.unsupported ∧
    evalRangeU16 { left := 200, right := 299 } { code := 200 } Predicate.is
        defaultLog = Except.error EvalError.unsupported :=
  ⟨((eval_unsupported_errors 500 { code := 200 } { left := 200, right := 299 }
      { left := { code := 200 }, right := { code := 299 } } { code := 200 }
      defaultLog Predicate.contains).1 ⟨by decide, by decide⟩).1,
    ((eval_unsupported_errors 500 { code := 200 } { left := 200, right := 299 }
      { left := { code := 200 }, right := { code := 299 } } { code := 200 }
      defaultLog Predicate.is).2 (by decide)).1⟩

/-- C7: `is_success` builds exactly the expression `is_between 200 299`;
evaluating it against observed status `200` passes, while evaluating `is 500`
against observed status `200` fails with expected `500` and actual `200`. -/
theorem success_shorthand_example :
    is_success = is_between 200 299 ∧
    (∃ r, evalExprRangeU16 is_success { code := 200 } defaultLog =
        Except.ok r ∧ r.passed = true) ∧
    (∃ r, evalExprU16 (is 500) { code := 200 } defaultLog = Except.ok r ∧
        r.passed = false ∧ r.expected = OperandShape.scalar 500 ∧
        r.actual = 200) :=
  ⟨rfl, ⟨_, rfl, by decide⟩, ⟨_, rfl, by decide, rfl, rfl⟩⟩

/-- C8: deciding `passed` is deterministic and side-effect-free: evaluation
is a pure function of the expression and the observed status code, so two
evaluations of the same expression against the same observed value — even
under different log settings, the only other input — produce identical
assertions. -/
theorem eval_deterministic_log_independent (v : Nat) (s : StatusCode)
    (rg : Range Nat) (rgs : Range StatusCode) (p : Predicate) (x : StatusCode)
    (settings₁ settings₂ : LogSettings) :
    evalU16 v x p settings₁ = evalU16 v x p settings₂ ∧
    evalStatus s x p settings₁ = evalStatus s x p settings₂ ∧
    evalRangeU16 rg x p settings₁ = evalRangeU16 rg x p settings₂ ∧
    evalRangeStatus rgs x p settings₁ = evalRangeStatus rgs x p settings₂ := by
  cases p <;> exact ⟨rfl, rfl, rfl, rfl⟩

/-- C9: evaluating with a `u16` expected operand is equivalent to evaluating
with the corresponding `StatusCode` operand, for every predicate and every
observed status code, in both the scalar and the range form. -/
theorem eval_u16_statuscode_equiv (n a b : Nat) (p : Predicate)
    (x : StatusCode) (settings : LogSettings) :
    evalU16 n x p settings = evalStatus { code := n } x p settings ∧
    evalRangeU16 { left := a, right := b } x p settings =
      evalRangeStatus { left := { code := a }, right := { code := b } } x p
        settings := by
  cases p <;> exact ⟨rfl, rfl⟩

/-- Whether evaluating a `Range<u16>` expression against an observed status
code yields a passing assertion (unsupported pairings count as not
passing). -/
def betweenPasses (e : Expression (Range Nat)) (x : StatusCode)
    (settings : LogSettings) : Bool :=
  match evalExprRangeU16 e x settings with
  | Except.ok r => r.passed
  | Except.error _ => false

/-- C10: every status shorthand factory returns a `Between` expression with
ordered bounds — `is_success` gives `[200, 299]`, `is_client_error` gives
`[400, 499]`, `is_server_error` gives `[500, 599]` — and the three ranges
are pairwise disjoint: no observed status code satisfies two of them. -/
theorem shorthand_ranges_ordered_disjoint (x : StatusCode)
    (settings : LogSettings) :
    (is_success = is_between 200 299 ∧
      is_success.value.left ≤ is_success.value.right) ∧
    (is_client_error = is_between 400 499 ∧
      is_client_error.value.left ≤ is_client_error.value.right) ∧
    (is_server_error = is_between 500 599 ∧
      is_server_error.value.left ≤ is_server_error.value.right) ∧
    (betweenPasses is_success x settings &&
      betweenPasses is_client_error x settings) = false ∧
    (betweenPasses is_success x settings &&
      betweenPasses is_server_error x settings) = false ∧
    (betweenPasses is_client_error x settings &&
      betweenPasses is_server_error x settings) = false := by
  refine ⟨⟨rfl, by decide⟩, ⟨rfl, by decide⟩, ⟨rfl, by decide⟩, ?_, ?_, ?_⟩ <;>
  · simp only [betweenPasses, evalExprRangeU16, evalRangeU16, is_success,
      is_client_error, is_server_error, is_between, isBetweenRangeU16,
      StatusCode.in_range, Assertion.assert, Bool.and_eq_false_iff,
      decide_eq_false_iff_not, not_and, not_le, Bool.and_eq_true,
      decide_eq_true_eq]
    omega

end Mantis
